import Mathlib

/-!
Verification of `onlyfiles-downloader.py`, a bounded-concurrency batch file
downloader.  Strings are embedded as `List Char`; every Python string
operation used by the program (`in`, `str.split`, `str.strip`, `re.search`
with the two fixed patterns) is given an executable Lean counterpart, and the
per-task pipeline `download_file` is embedded as a pure function over an
explicit `World` describing the network response and the possible I/O faults
of one task.  The asyncio semaphore that caps in-flight tasks is embedded as
a small-step transition system.
-/

/-- Strings of the program are embedded as lists of characters. -/
abbrev Str := List Char

/-- `MAX_CONCURRENT_DOWNLOADS = 15` from the source. -/
def MAX_CONCURRENT_DOWNLOADS : Nat := 15

/-- The host-specific path segment tested by `"pillowcase.su/f/" in url`. -/
def hostSegment : Str := "pillowcase.su/f/".toList

/-- The literal head of the embedded-link pattern
`https://pillowcase\.su/f/[a-f0-9]{32}`. -/
def pillowLinkHead : Str := "https://pillowcase.su/f/".toList

/-- The fixed API base used to build the download endpoint. -/
def apiDownloadBase : Str := "https://api.pillows.su/api/download/".toList

/-- The `filename=` marker searched in the content-disposition header. -/
def fnMarker : Str := "filename=".toList

/-- The character class `[a-f0-9]` of the source's regular expressions. -/
def isHexLower (c : Char) : Bool := ('a' ≤ c && c ≤ 'f') || ('0' ≤ c && c ≤ '9')

/-- Python's substring test `pat in s` (true iff `pat` occurs in `s`). -/
def containsSub (pat : Str) : Str → Bool
  | [] => pat.isEmpty
  | c :: cs => pat.isPrefixOf (c :: cs) || containsSub pat cs

/-- Match `[a-f0-9]{32}` anchored at the start of `cs`: the first 32
characters when they are all lowercase hex, else no match. -/
def takeHex32 (cs : Str) : Option Str :=
  let pre := cs.take 32
  if pre.length = 32 && pre.all isHexLower then some pre else none

/-- `re.search` with pattern `([a-f0-9]{32})` (the source's `ID_PATTERN`):
the leftmost run of 32 lowercase-hex characters. -/
def searchHex32 : Str → Option Str
  | [] => none
  | c :: cs =>
    match takeHex32 (c :: cs) with
    | some m => some m
    | none => searchHex32 cs

/-- Match `https://pillowcase\.su/f/[a-f0-9]{32}` anchored at the start. -/
def matchPillowAt (cs : Str) : Option Str :=
  if pillowLinkHead.isPrefixOf cs then
    match takeHex32 (cs.drop pillowLinkHead.length) with
    | some h => some (pillowLinkHead ++ h)
    | none => none
  else none

/-- `re.search(r"(https://pillowcase\.su/f/[a-f0-9]{32})", url)`: the
leftmost occurrence of the embedded-link pattern. -/
def searchPillow : Str → Option Str
  | [] => none
  | c :: cs =>
    match matchPillowAt (c :: cs) with
    | some m => some m
    | none => searchPillow cs

/-- `unwrap_pillowcase_url` from the source: keep the whole string when it
contains the host segment, otherwise extract the leftmost embedded canonical
link, otherwise fail. -/
def unwrap_pillowcase_url (url : Str) : Option Str :=
  if containsSub hostSegment url then some url
  else searchPillow url

/-- `ID_PATTERN.search` on the resolved link. -/
def ID_PATTERN_search (s : Str) : Option Str := searchHex32 s

/-- Python's `str.strip` family: drop characters satisfying `bad` from both
ends. -/
def pyStripChars (bad : Char → Bool) (s : Str) : Str :=
  ((s.dropWhile bad).reverse.dropWhile bad).reverse

/-- `str.strip()` (whitespace at both ends). -/
def pyStrip (s : Str) : Str := pyStripChars Char.isWhitespace s

/-- `str.strip('"')` (double quotes at both ends). -/
def stripQuotes (s : Str) : Str := pyStripChars (fun c => c == '"') s

/-- Worker for `splitPieces`, structurally recursive on a fuel that bounds
the string length (every step consumes at least one character, so a fuel of
`s.length` is enough). -/
def splitPiecesAux (marker : Str) : Nat → Str → List Str
  | _, [] => [[]]
  | 0, s => [s]
  | fuel + 1, c :: cs =>
    if marker ≠ [] ∧ marker.isPrefixOf (c :: cs) = true then
      [] :: splitPiecesAux marker fuel (cs.drop (marker.length - 1))
    else
      match splitPiecesAux marker fuel cs with
      | [] => [[c]]
      | piece :: rest => (c :: piece) :: rest

/-- Python's `s.split(marker)` for a non-empty marker: the list of pieces
between the non-overlapping left-to-right occurrences of `marker`. -/
def splitPieces (marker s : Str) : List Str := splitPiecesAux marker s.length s

/-- `s.split(marker)[-1]`: the piece after the last occurrence of the
marker (the whole string when the marker does not occur). -/
def lastSplitPiece (marker s : Str) : Str := (splitPieces marker s).getLastD []

/-- `parse_urls`: the stripped versions of the lines whose stripped form is
non-empty (Python truthiness of `line.strip()`). -/
def parse_urls (lines : List Str) : List Str :=
  (lines.map pyStrip).filter (fun l => !l.isEmpty)

/-- Filename derivation of `download_file` lines 67-71: from the
content-disposition header when it exists and contains `filename=`
(`cd.split("filename=")[-1].strip().strip('"')`), otherwise
`<identifier>.bin`. -/
def deriveFilename (cd : Option Str) (identifier : Str) : Str :=
  match cd with
  | some c =>
    if containsSub fnMarker c then stripQuotes (pyStrip (lastSplitPiece fnMarker c))
    else identifier ++ ".bin".toList
  | none => identifier ++ ".bin".toList

-- Sanity checks of the string machinery on concrete inputs.
example : searchHex32 "x0123456789abcdef0123456789abcdefy".toList =
    some "0123456789abcdef0123456789abcdef".toList := by decide
example : searchHex32 "0123456789abcdeg".toList = none := by decide
-- A line embedding a canonical link also contains the host segment, so the
-- first branch returns the whole line (the extraction branch cannot fire).
example : unwrap_pillowcase_url "see https://pillowcase.su/f/0123456789abcdef0123456789abcdef end".toList =
    some "see https://pillowcase.su/f/0123456789abcdef0123456789abcdef end".toList := by decide
example : searchPillow "see https://pillowcase.su/f/0123456789abcdef0123456789abcdef end".toList =
    some "https://pillowcase.su/f/0123456789abcdef0123456789abcdef".toList := by decide
example : unwrap_pillowcase_url "not a valid url at all".toList = none := by decide
example : deriveFilename (some "attachment; filename=\"song.mp3\"".toList) "id".toList =
    "song.mp3".toList := by decide
example : deriveFilename none "0123".toList = "0123.bin".toList := by decide
example : parse_urls ["  a ".toList, "".toList, "  ".toList, "b".toList] =
    ["a".toList, "b".toList] := by decide
example : lastSplitPiece "ab".toList "xabyabz".toList = "z".toList := by decide

/-! ## Per-task model

`download_file` is embedded as a pure function of the input line (the url)
and a `World` describing the one network response this task would receive
and the I/O faults its file write would hit.  The result records the
endpoint that was requested, the file written (possibly partial), the
error-log append, and the progress-counter advancement of the task. -/

/-- An HTTP response: status, optional content-disposition header value, and
the body as the list of chunks `iter_chunked` yields. -/
structure HttpResponse where
  status : Nat
  contentDisposition : Option Str
  chunks : List (List Nat)
deriving DecidableEq, Repr

/-- Outcome of `session.get`: a response, or an exception (connection error,
timeout) with its description. -/
inductive NetResult where
  | ok (resp : HttpResponse)
  | exn (msg : Str)
deriving DecidableEq, Repr

/-- The environment of one task: the network outcome, whether opening the
output file raises, and whether (and at which chunk) a write raises. -/
structure World where
  net : NetResult
  openFail : Option Str
  writeFail : Option (Nat × Str)
deriving DecidableEq, Repr

/-- One line of the error log: `filename \t url \t reason`. -/
structure ErrorRecord where
  filename : Str
  url : Str
  reason : Str
deriving DecidableEq, Repr

/-- A file produced in the output directory: its name, the chunks actually
written, and whether the whole body made it to disk. -/
structure FileOut where
  name : Str
  content : List (List Nat)
  complete : Bool
deriving DecidableEq, Repr

/-- Observable effects of one `download_file` task. -/
structure TaskResult where
  requested : Option Str
  fileWritten : Option FileOut
  errorLogged : Option ErrorRecord
  progressDelta : Nat
deriving DecidableEq, Repr

/-- `raise_for_status` raises exactly when the status is 400 or above. -/
def successStatus (status : Nat) : Bool := status < 400

/-- Model of `str(ClientResponseError)` for a failing status. -/
def httpErrorMsg (status : Nat) : Str :=
  "HTTP error ".toList ++ (Nat.repr status).toList

/-- Stream the body chunks to disk: all of them, or the prefix written
before the injected write fault, with the fault's message. -/
def writeChunks (chunks : List (List Nat)) (fault : Option (Nat × Str)) :
    List (List Nat) × Option Str :=
  match fault with
  | none => (chunks, none)
  | some (i, msg) =>
    if i < chunks.length then (chunks.take i, some msg) else (chunks, none)

/-- The body of `download_file` (source lines 47-83): resolve the line,
extract the identifier, build the endpoint, fetch, derive the filename,
stream to disk; any failure is logged as an Error Record with the
best-known filename, and the progress counter is advanced exactly once in
the `finally` block. -/
def download_file (w : World) (url : Str) : TaskResult :=
  match unwrap_pillowcase_url url with
  | none =>
    { requested := none, fileWritten := none,
      errorLogged := some ⟨"unknown".toList, url, "No pillowcase link found".toList⟩,
      progressDelta := 1 }
  | some real_url =>
    match ID_PATTERN_search real_url with
    | none =>
      { requested := none, fileWritten := none,
        errorLogged := some ⟨"unknown".toList, url, "No file ID found".toList⟩,
        progressDelta := 1 }
    | some identifier =>
      let download_url := apiDownloadBase ++ identifier
      match w.net with
      | NetResult.exn msg =>
        { requested := some download_url, fileWritten := none,
          errorLogged := some ⟨"unknown".toList, url, msg⟩,
          progressDelta := 1 }
      | NetResult.ok resp =>
        if successStatus resp.status then
          let filename := deriveFilename resp.contentDisposition identifier
          match w.openFail with
          | some msg =>
            { requested := some download_url, fileWritten := none,
              errorLogged := some ⟨filename, url, msg⟩,
              progressDelta := 1 }
          | none =>
            match writeChunks resp.chunks w.writeFail with
            | (written, none) =>
              { requested := some download_url,
                fileWritten := some ⟨filename, written, true⟩,
                errorLogged := none, progressDelta := 1 }
            | (written, some msg) =>
              { requested := some download_url,
                fileWritten := some ⟨filename, written, false⟩,
                errorLogged := some ⟨filename, url, msg⟩,
                progressDelta := 1 }
        else
          { requested := some download_url, fileWritten := none,
            errorLogged := some ⟨"unknown".toList, url, httpErrorMsg resp.status⟩,
            progressDelta := 1 }

/-- A task succeeded when it produced a completely-written file. -/
def succeeded (r : TaskResult) : Bool :=
  match r.fileWritten with
  | some f => f.complete
  | none => false

/-- All tasks of a run, one world per line. -/
def run_tasks (ws : List World) (urls : List Str) : List TaskResult :=
  List.zipWith download_file ws urls

/-- Total number of progress-counter advancements of a run. -/
def totalProgress (rs : List TaskResult) : Nat :=
  (rs.map (fun r => r.progressDelta)).sum

/-- Observable outcome of `main` (summary printing of the non-empty case is
wall-clock dependent and not inspected by any claim, so it is elided). -/
structure RunOutput where
  printed : List Str
  outputDirCreated : Bool
  tasksScheduled : Nat
  results : List TaskResult
  exitCode : Nat
deriving DecidableEq, Repr

/-- `main` (source lines 86-127): parse the input lines; with zero urls
print `No URLs found.` and return, else create the output directory, run
one task per url under the semaphore, and exit cleanly. -/
def main_run (lines : List Str) (ws : List World) : RunOutput :=
  let urls := parse_urls lines
  if urls.length = 0 then
    { printed := ["No URLs found.".toList], outputDirCreated := false,
      tasksScheduled := 0, results := [], exitCode := 0 }
  else
    { printed := [], outputDirCreated := true,
      tasksScheduled := urls.length,
      results := run_tasks ws urls, exitCode := 0 }

-- Concrete evaluations of the task model.
example :
    download_file ⟨NetResult.ok ⟨200, some "filename=\"song.mp3\"".toList, [[1], [2]]⟩, none, none⟩
      "https://pillowcase.su/f/0123456789abcdef0123456789abcdef".toList =
    { requested := some ("https://api.pillows.su/api/download/0123456789abcdef0123456789abcdef".toList),
      fileWritten := some ⟨"song.mp3".toList, [[1], [2]], true⟩,
      errorLogged := none, progressDelta := 1 } := by decide
example :
    download_file ⟨NetResult.ok ⟨404, none, []⟩, none, none⟩
      "https://pillowcase.su/f/0123456789abcdef0123456789abcdef".toList =
    { requested := some ("https://api.pillows.su/api/download/0123456789abcdef0123456789abcdef".toList),
      fileWritten := none,
      errorLogged := some ⟨"unknown".toList,
        "https://pillowcase.su/f/0123456789abcdef0123456789abcdef".toList,
        "HTTP error 404".toList⟩,
      progressDelta := 1 } := by decide

/-! ## Scheduler model

`main` wraps every task body in `async with semaphore` where the semaphore
starts with `MAX_CONCURRENT_DOWNLOADS` permits, and the network request
happens strictly inside the guarded region.  The semaphore protocol is
embedded as a transition system: a task becomes `active` (it may then hold a
network request) only by taking a permit, and returns its permit when it
finishes. -/

/-- Scheduling state of one Download Task. -/
inductive TState where
  | waiting
  | active
  | finished
deriving DecidableEq, Repr

/-- State of a run: the per-task states and the permits the semaphore still
holds. -/
structure Sched where
  tasks : List TState
  permits : Nat
deriving DecidableEq, Repr

/-- Initial state for `n` input lines: every task pending, all
`MAX_CONCURRENT_DOWNLOADS` permits free. -/
def initSched (n : Nat) : Sched :=
  { tasks := List.replicate n TState.waiting, permits := MAX_CONCURRENT_DOWNLOADS }

/-- Number of tasks currently inside the semaphore-guarded region. -/
def activeCount (s : Sched) : Nat :=
  s.tasks.countP (fun t => t == TState.active)

/-- Semaphore protocol steps: a waiting task acquires a free permit and
becomes active; an active task finishes and releases its permit. -/
inductive SStep : Sched → Sched → Prop where
  | acquire (ts : List TState) (p : Nat) (i : Fin ts.length) :
      0 < p → ts.get i = TState.waiting →
      SStep ⟨ts, p⟩ ⟨ts.set i.val TState.active, p - 1⟩
  | release (ts : List TState) (p : Nat) (i : Fin ts.length) :
      ts.get i = TState.active →
      SStep ⟨ts, p⟩ ⟨ts.set i.val TState.finished, p + 1⟩

/-- States reachable in a run over `n` input lines. -/
inductive Reachable (n : Nat) : Sched → Prop where
  | init : Reachable n (initSched n)
  | step {s t : Sched} : Reachable n s → SStep s t → Reachable n t

/-! ## Lemmas about the scheduler -/

/-- Updating one entry moves `countP` by the contributions of the old and
new entries. -/
theorem countP_set_eq (p : TState → Bool) :
    ∀ (l : List TState) (i : Nat) (a b : TState), l.get? i = some b →
      (l.set i a).countP p + (if p b then 1 else 0) =
        l.countP p + (if p a then 1 else 0) := by
  intro l
  induction l with
  | nil => intro i a b h; simp at h
  | cons x xs ih =>
    intro i a b h
    cases i with
    | zero =>
      rw [List.get?_cons_zero] at h
      cases h
      simp [List.countP_cons]
      omega
    | succ j =>
      rw [List.get?_cons_succ] at h
      have := ih j a b h
      simp [List.countP_cons]
      omega

/-- No task of the initial state is active. -/
theorem countP_replicate_waiting (n : Nat) :
    (List.replicate n TState.waiting).countP (fun t => t == TState.active) = 0 := by
  induction n with
  | zero => rfl
  | succ m ih => simp [List.replicate, List.countP_cons, ih]

/-- Invariant of the semaphore protocol: active tasks plus free permits
always total `MAX_CONCURRENT_DOWNLOADS`. -/
theorem sched_invariant {n : Nat} {s : Sched} (h : Reachable n s) :
    activeCount s + s.permits = MAX_CONCURRENT_DOWNLOADS := by
  induction h with
  | init => simp [initSched, activeCount, countP_replicate_waiting]
  | step _ hstep ih =>
    cases hstep with
    | acquire ts p i hp hw =>
      have hget : ts.get? i.val = some TState.waiting := by
        rw [List.get?_eq_get i.isLt]
        simpa using congrArg some hw
      have hc := countP_set_eq (fun t => t == TState.active) ts i.val
        TState.active TState.waiting hget
      simp at hc
      simp [activeCount] at ih ⊢
      omega
    | release ts p i ha =>
      have hget : ts.get? i.val = some TState.active := by
        rw [List.get?_eq_get i.isLt]
        simpa using congrArg some ha
      have hc := countP_set_eq (fun t => t == TState.active) ts i.val
        TState.finished TState.active hget
      simp at hc
      simp [activeCount] at ih ⊢
      omega

/-! ## Lemmas about the pattern searches -/

/-- A match of `takeHex32` is 32 lowercase-hex characters. -/
theorem takeHex32_shape {cs m : Str} (h : takeHex32 cs = some m) :
    m.length = 32 ∧ m.all isHexLower = true := by
  unfold takeHex32 at h
  by_cases hc : (cs.take 32).length = 32 && (cs.take 32).all isHexLower
  · rw [if_pos hc] at h
    cases h
    simpa using hc
  · rw [if_neg hc] at h
    cases h

/-- Any 32-character all-hex string matches `takeHex32` whole. -/
theorem takeHex32_of_hex {h32 : Str} (hlen : h32.length = 32)
    (hhex : h32.all isHexLower = true) : takeHex32 h32 = some h32 := by
  have ht : h32.take 32 = h32 := List.take_of_length_le (by omega)
  unfold takeHex32
  rw [ht, if_pos (by simp [hlen, hhex])]

/-- A match of `ID_PATTERN` is 32 lowercase-hex characters. -/
theorem searchHex32_shape : ∀ {cs m : Str}, searchHex32 cs = some m →
    m.length = 32 ∧ m.all isHexLower = true := by
  intro cs
  induction cs with
  | nil => intro m h; cases h
  | cons c cs ih =>
    intro m h
    unfold searchHex32 at h
    cases htk : takeHex32 (c :: cs) with
    | some k =>
      rw [htk] at h
      cases h
      exact takeHex32_shape htk
    | none =>
      rw [htk] at h
      exact ih h

/-- `ID_PATTERN.search` succeeds on any string that ends in 32 hex
characters. -/
theorem searchHex32_append_isSome (h32 : Str) (hlen : h32.length = 32)
    (hhex : h32.all isHexLower = true) :
    ∀ xs : Str, (searchHex32 (xs ++ h32)).isSome = true := by
  intro xs
  induction xs with
  | nil =>
    cases h32 with
    | nil => simp at hlen
    | cons c cs =>
      show (searchHex32 (c :: cs)).isSome = true
      unfold searchHex32
      rw [takeHex32_of_hex hlen hhex]
      rfl
  | cons x xs ih =>
    show (searchHex32 (x :: (xs ++ h32))).isSome = true
    unfold searchHex32
    cases htk : takeHex32 (x :: (xs ++ h32)) with
    | some k => rfl
    | none => exact ih

/-- A match of the embedded-link pattern is the literal head followed by 32
hex characters. -/
theorem matchPillowAt_shape {cs m : Str} (h : matchPillowAt cs = some m) :
    ∃ h32 : Str, m = pillowLinkHead ++ h32 ∧ h32.length = 32 ∧
      h32.all isHexLower = true := by
  unfold matchPillowAt at h
  by_cases hp : pillowLinkHead.isPrefixOf cs = true
  · rw [if_pos hp] at h
    cases htk : takeHex32 (cs.drop pillowLinkHead.length) with
    | some k =>
      rw [htk] at h
      cases h
      exact ⟨k, rfl, takeHex32_shape htk⟩
    | none => rw [htk] at h; cases h
  · rw [if_neg hp] at h
    cases h

/-- Every result of the extraction search has the canonical-link shape. -/
theorem searchPillow_shape : ∀ {cs m : Str}, searchPillow cs = some m →
    ∃ h32 : Str, m = pillowLinkHead ++ h32 ∧ h32.length = 32 ∧
      h32.all isHexLower = true := by
  intro cs
  induction cs with
  | nil => intro m h; cases h
  | cons c cs ih =>
    intro m h
    unfold searchPillow at h
    cases hmt : matchPillowAt (c :: cs) with
    | some k =>
      rw [hmt] at h
      cases h
      exact matchPillowAt_shape hmt
    | none =>
      rw [hmt] at h
      exact ih h

/-- Every task advances the progress counter exactly once. -/
theorem progressDelta_eq_one (w : World) (url : Str) :
    (download_file w url).progressDelta = 1 := by
  unfold download_file
  repeat' split
  all_goals rfl

/-- Sum of progress advancements over paired worlds and urls. -/
theorem totalProgress_run (ws : List World) : ∀ urls : List Str,
    ws.length = urls.length →
    totalProgress (run_tasks ws urls) = urls.length := by
  induction ws with
  | nil =>
    intro urls h
    cases urls with
    | nil => rfl
    | cons u us => simp at h
  | cons w ws ih =>
    intro urls h
    cases urls with
    | nil => simp at h
    | cons u us =>
      have h' : ws.length = us.length := by simpa using h
      have hrec := ih us h'
      show totalProgress (download_file w u :: run_tasks ws us) = us.length + 1
      unfold totalProgress at hrec ⊢
      rw [List.map_cons, List.sum_cons, progressDelta_eq_one, hrec]
      omega

/-! ## Inputs and worlds used by witnesses and counterexamples -/

/-- A line that is exactly a canonical link. -/
def goodUrl : Str :=
  "https://pillowcase.su/f/0123456789abcdef0123456789abcdef".toList

/-- Its 32-hex identifier. -/
def goodId : Str := "0123456789abcdef0123456789abcdef".toList

/-- A world whose GET raises a connection error. -/
def idleWorld : World :=
  ⟨NetResult.exn "Connection reset by peer".toList, none, none⟩

/-- A world answering 200 with a content-disposition filename. -/
def okWorld : World :=
  ⟨NetResult.ok ⟨200, some "attachment; filename=\"song.mp3\"".toList, [[1], [2]]⟩,
    none, none⟩

/-- A world answering 404. -/
def notFoundWorld : World := ⟨NetResult.ok ⟨404, none, []⟩, none, none⟩

/-- A world answering 200 whose second chunk write raises. -/
def partialWriteWorld : World :=
  ⟨NetResult.ok ⟨200, some "filename=song.mp3".toList, [[1], [2]]⟩,
    none, some (1, "No space left on device".toList)⟩

/-! ## Claims -/

/-- C2: at no instant during a run do more than `MAX_CONCURRENT_DOWNLOADS`
(15) Download Tasks hold an active network request simultaneously, for every
input list regardless of its length: in every reachable state of the
semaphore protocol, at most 15 tasks are inside the guarded region that
issues the network request. -/
theorem c2_concurrency_cap {n : Nat} {s : Sched} (h : Reachable n s) :
    activeCount s ≤ MAX_CONCURRENT_DOWNLOADS := by
  have := sched_invariant h
  omega

/-- Witness for C2: a reachable state of a 50-line run (one task has
acquired a permit) satisfies the cap. -/
theorem c2_concurrency_cap_witness :
    activeCount ⟨(List.replicate 50 TState.waiting).set 0 TState.active,
      MAX_CONCURRENT_DOWNLOADS - 1⟩ ≤ MAX_CONCURRENT_DOWNLOADS :=
  c2_concurrency_cap (Reachable.step Reachable.init
    (SStep.acquire (List.replicate 50 TState.waiting) MAX_CONCURRENT_DOWNLOADS
      ⟨0, by decide⟩ (by decide) (by decide)))

/-- C7: each Download Task advances the progress counter exactly once on
reaching a terminal state, and the total number of advancements equals the
number of non-empty whitespace-trimmed input lines, regardless of the
outcome mix. -/
theorem c7_progress_counter :
    (∀ (w : World) (url : Str), (download_file w url).progressDelta = 1) ∧
    ∀ (lines : List Str) (ws : List World),
      ws.length = (parse_urls lines).length →
      totalProgress (run_tasks ws (parse_urls lines)) =
        (parse_urls lines).length :=
  ⟨progressDelta_eq_one, fun _ ws h => totalProgress_run ws _ h⟩

/-- Witness for C7: a three-line input (one blank) with mixed outcomes
advances the counter twice. -/
theorem c7_progress_counter_witness :
    totalProgress (run_tasks [idleWorld, notFoundWorld]
      (parse_urls ["  bad line ".toList, "".toList, goodUrl])) =
      (parse_urls ["  bad line ".toList, "".toList, goodUrl]).length :=
  c7_progress_counter.2 ["  bad line ".toList, "".toList, goodUrl]
    [idleWorld, notFoundWorld] (by decide)

/-- C8: when the input file yields zero non-empty whitespace-trimmed lines,
the run prints `No URLs found.`, creates no output directory, schedules no
tasks, and exits successfully. -/
theorem c8_no_work (lines : List Str) (ws : List World)
    (h : parse_urls lines = []) :
    main_run lines ws =
      { printed := ["No URLs found.".toList], outputDirCreated := false,
        tasksScheduled := 0, results := [], exitCode := 0 } := by
  simp [main_run, h]

/-- Witness for C8: a file of one blank and one whitespace-only line. -/
theorem c8_no_work_witness :
    main_run ["".toList, "   ".toList] [] =
      { printed := ["No URLs found.".toList], outputDirCreated := false,
        tasksScheduled := 0, results := [], exitCode := 0 } :=
  c8_no_work ["".toList, "   ".toList] [] (by decide)

/-- C9: every input string that contains the host-specific path segment
`pillowcase.su/f/` resolves to itself, unchanged. -/
theorem c9_roundtrip (url : Str) (h : containsSub hostSegment url = true) :
    unwrap_pillowcase_url url = some url := by
  simp [unwrap_pillowcase_url, h]

/-- Witness for C9: a canonical link resolves to itself. -/
theorem c9_roundtrip_witness : unwrap_pillowcase_url goodUrl = some goodUrl :=
  c9_roundtrip goodUrl (by decide)

/-- C10: whenever the extraction pattern search finds an embedded canonical
link and the resolver returns it, the translator's identifier search on that
link succeeds, so the `No file ID found` failure branch is unreachable for
such inputs.  (This is stronger than the claim's branch-conditioned wording:
a string embedding a canonical link always contains the host segment, so the
extraction branch itself cannot return a match; the property is proved for
every string on which the pattern search succeeds.) -/
theorem c10_extracted_link_has_id (url m : Str)
    (h : searchPillow url = some m)
    (hres : unwrap_pillowcase_url url = some m) :
    ID_PATTERN_search m ≠ none := by
  obtain ⟨h32, hm, hlen, hhex⟩ := searchPillow_shape h
  subst hm
  have hs := searchHex32_append_isSome h32 hlen hhex pillowLinkHead
  intro hc
  rw [ID_PATTERN_search] at hc
  rw [hc] at hs
  cases hs

/-- Witness for C10: a line that is exactly a canonical link is both found
by the pattern search and returned by the resolver, and carries an
identifier. -/
theorem c10_extracted_link_has_id_witness : ID_PATTERN_search goodUrl ≠ none :=
  c10_extracted_link_has_id goodUrl goodUrl (by decide) (by decide)

/-- C1 fails as stated: when a write exception hits mid-transfer, the task
leaves a (partial) file in the output directory AND appends an Error Record
— both outcomes occur for one non-empty input line. -/
theorem c1_counterexample :
    goodUrl ≠ [] ∧
    (download_file partialWriteWorld goodUrl).fileWritten.isSome = true ∧
    (download_file partialWriteWorld goodUrl).errorLogged.isSome = true := by
  decide

/-- C1 (amended): for every input line, exactly one of {task succeeds with a
completely-written file and no Error Record, task appends an Error Record
without completing a file} occurs — never both, never neither; on a
mid-transfer I/O failure the Error Record may coexist with a partial file. -/
theorem c1_outcome_exclusive (w : World) (url : Str) (h : url ≠ []) :
    (succeeded (download_file w url) = true ∧
      (download_file w url).errorLogged = none) ∨
    (succeeded (download_file w url) = false ∧
      (download_file w url).errorLogged.isSome = true) := by
  unfold download_file
  repeat' split
  all_goals simp [succeeded]

/-- Witness for C1 (amended): a connection failure yields exactly the
error-record outcome. -/
theorem c1_outcome_exclusive_witness :
    (succeeded (download_file idleWorld goodUrl) = true ∧
      (download_file idleWorld goodUrl).errorLogged = none) ∨
    (succeeded (download_file idleWorld goodUrl) = false ∧
      (download_file idleWorld goodUrl).errorLogged.isSome = true) :=
  c1_outcome_exclusive idleWorld goodUrl (by decide)

/-- The unusable line of the spec's Scenario B. -/
def badLine : Str := "not a valid url at all".toList

/-- C3 fails as stated: the reason recorded for an unusable line is the
source's literal `No pillowcase link found`, not `no source link found`. -/
theorem c3_counterexample :
    (download_file idleWorld badLine).errorLogged =
      some ⟨"unknown".toList, badLine, "No pillowcase link found".toList⟩ ∧
    "No pillowcase link found".toList ≠ "no source link found".toList := by
  decide

/-- C3 (amended): a string containing the host segment resolves to itself;
otherwise the resolver returns exactly what the embedded-link pattern search
yields; and when it yields nothing the line is unusable: the task appends an
Error Record with filename `unknown` and reason `No pillowcase link found`,
requests nothing and writes nothing. -/
theorem c3_resolver_policy (url : Str) :
    (containsSub hostSegment url = true →
      unwrap_pillowcase_url url = some url) ∧
    (containsSub hostSegment url = false →
      unwrap_pillowcase_url url = searchPillow url) ∧
    (unwrap_pillowcase_url url = none → ∀ w : World,
      (download_file w url).errorLogged =
        some ⟨"unknown".toList, url, "No pillowcase link found".toList⟩ ∧
      (download_file w url).fileWritten = none ∧
      (download_file w url).requested = none) := by
  refine ⟨?_, ?_, ?_⟩
  · intro h
    simp [unwrap_pillowcase_url, h]
  · intro h
    simp [unwrap_pillowcase_url, h]
  · intro h w
    simp [download_file, h]

/-- Witness for C3 (amended): Scenario B's line records `unknown` with the
source's reason. -/
theorem c3_resolver_policy_witness :
    (download_file idleWorld badLine).errorLogged =
      some ⟨"unknown".toList, badLine, "No pillowcase link found".toList⟩ ∧
    (download_file idleWorld badLine).fileWritten = none ∧
    (download_file idleWorld badLine).requested = none :=
  (c3_resolver_policy badLine).2.2 (by decide) idleWorld

/-- A line containing the host segment but no 32-hex identifier. -/
def shortIdLine : Str := "pillowcase.su/f/short".toList

/-- C4 fails as stated: the reason recorded when no identifier is found is
the source's literal `No file ID found`, not `no file ID found`. -/
theorem c4_counterexample :
    (download_file idleWorld shortIdLine).errorLogged =
      some ⟨"unknown".toList, shortIdLine, "No file ID found".toList⟩ ∧
    "No file ID found".toList ≠ "no file ID found".toList := by
  decide

/-- C4 (amended): for every canonical source link the translator extracts
the 32-character lowercase-hex identifier by pattern search and requests the
endpoint `apiDownloadBase ++ identifier`; when no identifier is present the
task fails with an Error Record with filename `unknown` and reason
`No file ID found`, requesting and writing nothing. -/
theorem c4_translator (w : World) (url real_url : Str)
    (h : unwrap_pillowcase_url url = some real_url) :
    (ID_PATTERN_search real_url = none →
      (download_file w url).errorLogged =
        some ⟨"unknown".toList, url, "No file ID found".toList⟩ ∧
      (download_file w url).fileWritten = none ∧
      (download_file w url).requested = none) ∧
    (∀ identifier : Str, ID_PATTERN_search real_url = some identifier →
      (download_file w url).requested = some (apiDownloadBase ++ identifier) ∧
      identifier.length = 32 ∧ identifier.all isHexLower = true) := by
  constructor
  · intro hid
    simp [download_file, h, hid]
  · intro identifier hid
    have hshape := @searchHex32_shape real_url identifier hid
    refine ⟨?_, hshape.1, hshape.2⟩
    simp only [download_file, h, hid]
    repeat' split
    all_goals rfl

/-- Witness for C4 (amended): the canonical link requests the fixed API
endpoint built from its identifier. -/
theorem c4_translator_witness :
    (download_file idleWorld goodUrl).requested =
      some (apiDownloadBase ++ goodId) ∧
    goodId.length = 32 ∧ goodId.all isHexLower = true :=
  (c4_translator idleWorld goodUrl goodUrl (by decide)).2 goodId (by decide)

/-- C5: on a successful response the output filename comes from the
content-disposition header when one is present and contains `filename=`
(the piece after the marker, whitespace- then quote-stripped, as
`cd.split("filename=")[-1].strip().strip('"')` computes it); otherwise it is
`<identifier>.bin`. -/
theorem c5_filename_derivation (w : World) (url real_url identifier : Str)
    (resp : HttpResponse)
    (h1 : unwrap_pillowcase_url url = some real_url)
    (h2 : ID_PATTERN_search real_url = some identifier)
    (h3 : w.net = NetResult.ok resp)
    (h4 : successStatus resp.status = true)
    (h5 : w.openFail = none) :
    ∃ f : FileOut, (download_file w url).fileWritten = some f ∧
      f.name = (match resp.contentDisposition with
        | some cd =>
          if containsSub fnMarker cd then
            stripQuotes (pyStrip (lastSplitPiece fnMarker cd))
          else identifier ++ ".bin".toList
        | none => identifier ++ ".bin".toList) := by
  simp only [download_file, h1, h2, h3, h4, if_true]
  cases hw : writeChunks resp.chunks w.writeFail with
  | mk written err =>
    rw [h5]
    cases err with
    | none =>
      refine ⟨_, rfl, ?_⟩
      rfl
    | some msg =>
      refine ⟨_, rfl, ?_⟩
      rfl

/-- Witness for C5: a 200 response naming `song.mp3` in its header yields
that filename. -/
theorem c5_filename_derivation_witness :
    ∃ f : FileOut, (download_file okWorld goodUrl).fileWritten = some f ∧
      f.name = (match (some "attachment; filename=\"song.mp3\"".toList : Option Str) with
        | some cd =>
          if containsSub fnMarker cd then
            stripQuotes (pyStrip (lastSplitPiece fnMarker cd))
          else goodId ++ ".bin".toList
        | none => goodId ++ ".bin".toList) :=
  c5_filename_derivation okWorld goodUrl goodUrl goodId
    ⟨200, some "attachment; filename=\"song.mp3\"".toList, [[1], [2]]⟩
    (by decide) (by decide) rfl (by decide) rfl

/-- C6: a failing HTTP status makes the task append an Error Record with
filename `unknown` and a reason derived from the HTTP error, write no file,
and still reach its terminal state (the exception is caught at the task
boundary, so the batch continues and the progress counter advances). -/
theorem c6_http_failure (w : World) (url real_url identifier : Str)
    (resp : HttpResponse)
    (h1 : unwrap_pillowcase_url url = some real_url)
    (h2 : ID_PATTERN_search real_url = some identifier)
    (h3 : w.net = NetResult.ok resp)
    (h4 : successStatus resp.status = false) :
    (download_file w url).fileWritten = none ∧
    (download_file w url).errorLogged =
      some ⟨"unknown".toList, url, httpErrorMsg resp.status⟩ ∧
    (download_file w url).progressDelta = 1 := by
  simp [download_file, h1, h2, h3, h4]

/-- Witness for C6: a 404 on the canonical link logs
`unknown \t url \t HTTP error 404` and writes nothing. -/
theorem c6_http_failure_witness :
    (download_file notFoundWorld goodUrl).fileWritten = none ∧
    (download_file notFoundWorld goodUrl).errorLogged =
      some ⟨"unknown".toList, goodUrl, httpErrorMsg 404⟩ ∧
    (download_file notFoundWorld goodUrl).progressDelta = 1 :=
  c6_http_failure notFoundWorld goodUrl goodUrl goodId ⟨404, none, []⟩
    (by decide) (by decide) rfl (by decide)
